import Mathlib

/-!
Verification development for the sql-chain coordinator (`sqlchain/chain.go`).

The Go source under `src/sqlchain/chain.go` is embedded shallowly: pure
functions become Lean functions, in-place mutation becomes explicit state
passing (a function returns the `Chain` value as the call leaves it, together
with the returned error), machine integers become `Int`/`Nat`, and external
effects (the bolt store transaction outcome, the wall clock, the producer
rotation capability, the key store) become explicit parameters.

Types that `chain.go` uses but whose defining files are not part of the
sources at hand (`blockNode`, `blockIndex`, the header record encoding, the
`utils` element writer) are modelled from the spec; each such definition
carries a doc comment starting with "Modelled from the spec:".
-/

namespace SQLChain

/-- A 32-byte content hash (`hash.Hash`), modelled as a list of byte values.
Validity (length 32, every entry < 256) is tracked by `Hash.Valid`. -/
structure Hash where
  bytes : List Nat
deriving DecidableEq, Repr

/-- Well-formedness of a 32-byte hash value. -/
def Hash.Valid (h : Hash) : Prop := h.bytes.length = 32 ∧ ∀ b ∈ h.bytes, b < 256

/-- A signed block header (`SignedHeader`): the header fields `chain.go` reads
(`ParentHash`, `RootHash`, `Timestamp`, promoted from the embedded `Header`)
plus the `BlockHash`.  Timestamps are coordinated-time instants in
nanoseconds.  The producer identity, merkle root and signature are consumed
only by the external verification capabilities, whose outcomes are modelled
as the fields `verifyOk` (result of `Verify`) and `genesisOk` (result of
`VerifyAsGenesis`). -/
structure SignedHeader where
  ParentHash : Hash
  RootHash : Hash
  BlockHash : Hash
  Timestamp : Int
  verifyOk : Bool
  genesisOk : Bool
deriving DecidableEq, Repr

/-- A block (`Block`): a signed header plus an opaque payload.  `verifyOk`
models the outcome of the external `Block.Verify` capability. -/
structure Block where
  SignedHeader : SignedHeader
  verifyOk : Bool
deriving DecidableEq, Repr

/-- Modelled from the spec: a block-index node `{hash, height, timestamp,
parent-reference}` forming a tree rooted at genesis (spec section 3); the
`blockindex` source file is not among the sources. -/
inductive blockNode where
  | mk (hash : Hash) (height : Int) (timestamp : Int) (parent : Option blockNode)
deriving Repr

def blockNode.hash : blockNode → Hash
  | .mk h _ _ _ => h

def blockNode.height : blockNode → Int
  | .mk _ ht _ _ => ht

def blockNode.timestamp : blockNode → Int
  | .mk _ _ ts _ => ts

def blockNode.parent : blockNode → Option blockNode
  | .mk _ _ _ p => p

/-- Modelled from the spec: `newBlockNode(header, parent)` builds the node for
a freshly accepted header; genesis has height 0 and no parent, otherwise
`node.height == parent.height + 1` (spec section 3). -/
def newBlockNode (h : SignedHeader) (parent : Option blockNode) : blockNode :=
  .mk h.BlockHash
    (match parent with
     | none => 0
     | some p => p.height + 1)
    h.Timestamp parent

/-- Modelled from the spec: `(*blockNode).initBlockNode(header, parent)` is the
in-place initialiser used by `LoadChain`; it initialises a node exactly as
`newBlockNode` builds one. -/
def initBlockNode (h : SignedHeader) (parent : Option blockNode) : blockNode :=
  newBlockNode h parent

/-- Modelled from the spec: the in-memory block index, a mapping from block
hash to block node supporting membership and lookup (spec section 4.1). -/
structure blockIndex where
  entries : List (Hash × blockNode)
deriving Repr

/-- `newBlockIndex(cfg)`: a fresh, empty index. -/
def newBlockIndex : blockIndex := ⟨[]⟩

/-- Modelled from the spec: `AddBlock(node)` inserts by hash (spec 4.1). -/
def blockIndex.AddBlock (i : blockIndex) (n : blockNode) : blockIndex :=
  ⟨(n.hash, n) :: i.entries⟩

/-- Modelled from the spec: `HasBlock(hash)` membership test (spec 4.1). -/
def blockIndex.HasBlock (i : blockIndex) (h : Hash) : Bool :=
  i.entries.any (fun e => decide (e.1 = h))

/-- Modelled from the spec: `LookupNode(hash)` returns the node stored under
the given hash, if any (spec 4.1). -/
def blockIndex.LookupNode (i : blockIndex) (h : Hash) : Option blockNode :=
  (i.entries.find? (fun e => decide (e.1 = h))).map (fun e => e.2)

/-- Number of nodes held by the index. -/
def blockIndex.size (i : blockIndex) : Nat := i.entries.length

/-- `State`: snapshot of the current best chain — head node reference, head
hash and height (`Height` is a Go `int32`; the claims stay far from its
wrap-around boundary, so it is carried as `Int`). -/
structure State where
  node : Option blockNode
  Head : Hash
  Height : Int
deriving Repr

/-- Errors surfaced by the chain coordinator.  `ErrInvalidBlock`,
`ErrBlockExists`, `ErrBlockTimestampOutOfPeriod` and `ErrParentNotFound` are
the named errors of the package; `ErrVerifyFailed` / `ErrGenesisVerifyFailed`
stand for an error propagated from the external verification capability,
`ErrStoreFailed` for a failed bolt transaction, and `ErrStateDecode` for the
`EncodingError` on malformed persisted state bytes. -/
inductive ChainError where
  | ErrInvalidBlock
  | ErrBlockExists
  | ErrBlockTimestampOutOfPeriod
  | ErrParentNotFound
  | ErrVerifyFailed
  | ErrGenesisVerifyFailed
  | ErrStoreFailed
  | ErrStateDecode
deriving DecidableEq, Repr

/-- Encode an `int32` value as 4 big-endian bytes (two's complement), as
`binary.BigEndian` writes it. -/
def int32ToBytes (z : Int) : List Nat :=
  let n : Nat := (z % (4294967296 : Int)).toNat
  [n / 16777216 % 256, n / 65536 % 256, n / 256 % 256, n % 256]

/-- Decode 4 big-endian bytes as a two's-complement `int32` value. -/
def int32OfBytes (b0 b1 b2 b3 : Nat) : Int :=
  let n : Nat := b0 * 16777216 + b1 * 65536 + b2 * 256 + b3
  if n < 2147483648 then (n : Int) else (n : Int) - 4294967296

/-- `State.marshal`: the fixed-width record `utils.WriteElements` produces —
the 32 bytes of `s.Head` followed by the 4-byte signed big-endian `s.Height`
(spec section 4.2; the `utils` element writer is not among the sources and
its layout is modelled from the spec). -/
def State.marshal (s : State) : List Nat :=
  s.Head.bytes ++ int32ToBytes s.Height

/-- `State.unmarshal`: reads 32 hash bytes then a 4-byte signed big-endian
height from the buffer; a truncated buffer fails with the encoding error.
Trailing bytes are ignored, as `utils.ReadElements` over a `bytes.Reader`
ignores them.  The Go method reads only into `Head` and `Height`; its caller
passes a zero `State`, so the decoded state carries `node = none`. -/
def State.unmarshal (b : List Nat) : Except ChainError State :=
  match b.drop 32 with
  | b0 :: b1 :: b2 :: b3 :: _ =>
      .ok { node := none, Head := ⟨b.take 32⟩, Height := int32OfBytes b0 b1 b2 b3 }
  | _ => .error .ErrStateDecode

/-- `Runtime`: the chain runtime clock state.  Durations and instants are
nanosecond counts; the stop channel is modelled by whether it has been
closed. -/
structure Runtime where
  Offset : Int
  Period : Int
  ChainInitTime : Int
  NextHeight : Int
  stopChClosed : Bool
deriving DecidableEq, Repr

/-- `GotoNextTurn`: increments `NextHeight` by one. -/
def Runtime.GotoNextTurn (r : Runtime) : Runtime :=
  { r with NextHeight := r.NextHeight + 1 }

/-- The fatal runtime error raised by `close` on an already-closed channel. -/
inductive RuntimeFatal where
  | closeOfClosedChannel
deriving DecidableEq, Repr

/-- `Runtime.Stop` executes `close(r.stopCh)`: closing an open channel marks
it closed; closing an already-closed channel is a fatal runtime error. -/
def Runtime.Stop (r : Runtime) : Except RuntimeFatal Runtime :=
  if r.stopChClosed then .error .closeOfClosedChannel
  else .ok { r with stopChClosed := true }

/-- `Config`: the fields `chain.go` reads — the genesis block and the block
producing period.  The store location (`DataDir`) is represented by passing
the opened store explicitly. -/
structure Config where
  Genesis : Block
  Period : Int
deriving DecidableEq, Repr

/-- Lexicographic order on byte-string keys, the iteration order of the
bolt cursor. -/
def keyLt : List Nat → List Nat → Bool
  | [], [] => false
  | [], _ :: _ => true
  | _ :: _, [] => false
  | a :: as, b :: bs =>
      if a < b then true
      else if b < a then false
      else keyLt as bs

/-- Insert a header record keeping the bucket sorted by key (an equal key is
overwritten), so that cursor iteration reads records in key order. -/
def putHeader (k : List Nat) (v : SignedHeader) :
    List (List Nat × SignedHeader) → List (List Nat × SignedHeader)
  | [] => [(k, v)]
  | (k1, v1) :: t =>
      if keyLt k k1 then (k, v) :: (k1, v1) :: t
      else if k = k1 then (k, v) :: t
      else (k1, v1) :: putHeader k v t

/-- The bolt store as `chain.go` lays it out: the meta bucket holds the single
`ChainState` record under `metaStateKey`, and the block-index sub-bucket holds
one header record per accepted block, ordered by key.  The header record
encoding is not among the sources; modelled from the spec as a lossless
fixed-width record, the bucket holds the decoded header itself and
`header.unmarshal` always succeeds on a stored record. -/
structure Store where
  stateRec : Option (List Nat)
  headers : List (List Nat × SignedHeader)
deriving Repr

/-- A freshly created store, as `NewChain` prepares it (buckets created,
nothing written). -/
def emptyStore : Store := ⟨none, []⟩

/-- Modelled from the spec: `(*blockNode).indexKey()` derives the ordering
key from the node — height then hash (spec glossary: "by height then hash"),
the 4-byte big-endian height prefixed to the hash bytes so that keys sort in
chain order. -/
def blockNode.indexKey (n : blockNode) : List Nat :=
  int32ToBytes n.height ++ n.hash.bytes

/-- `Chain`: the sql-chain struct. -/
structure Chain where
  cfg : Config
  db : Store
  index : blockIndex
  rt : Runtime
  pendingBlock : Block
  state : State
deriving Repr

/-- `Chain.PushBlock`: pushes a signed block header extending the current main
chain.  A header whose parent is not the current head is rejected before any
mutation.  Otherwise the in-memory state and index are updated, and then the
bolt transaction writes the header record and the new state record; the
transaction outcome is external I/O, supplied as `storeOk`, and on failure
bolt rolls the store itself back.  The returned chain is the value the call
leaves in place (mirroring Go's in-place mutation), paired with the returned
error. -/
def Chain.PushBlock (c : Chain) (block : SignedHeader) (storeOk : Bool) :
    Chain × Option ChainError :=
  if block.ParentHash ≠ c.state.Head then (c, some .ErrInvalidBlock)
  else
    let node := newBlockNode block c.state.node
    let st : State := { node := some node, Head := block.BlockHash, Height := c.state.Height + 1 }
    let c1 : Chain := { c with state := st, index := c.index.AddBlock node }
    if storeOk then
      ({ c1 with db := { stateRec := some st.marshal,
                         headers := putHeader node.indexKey block c1.db.headers } }, none)
    else (c1, some .ErrStoreFailed)

/-- `Chain.AdviseNewBlock`: the admission pipeline — duplicate-hash check,
production-window check for height `state.Height + 1`, signature verification,
then delegation to `PushBlock`.  (`finish` is the Go variable `end`.) -/
def Chain.AdviseNewBlock (c : Chain) (block : Block) (storeOk : Bool) :
    Chain × Option ChainError :=
  if c.index.HasBlock block.SignedHeader.BlockHash then (c, some .ErrBlockExists)
  else
    let start := c.cfg.Genesis.SignedHeader.Timestamp + (c.state.Height + 1) * c.cfg.Period
    let finish := start + c.cfg.Period
    let ptime := block.SignedHeader.Timestamp
    if ptime < start ∨ (ptime = finish ∨ finish < ptime) then
      (c, some .ErrBlockTimestampOutOfPeriod)
    else if block.verifyOk = false then (c, some .ErrVerifyFailed)
    else c.PushBlock block.SignedHeader storeOk

/-- The zero `Block{}` value used for `pendingBlock`. -/
def zeroBlock : Block :=
  { SignedHeader :=
      { ParentHash := ⟨List.replicate 32 0⟩, RootHash := ⟨List.replicate 32 0⟩,
        BlockHash := ⟨List.replicate 32 0⟩, Timestamp := 0,
        verifyOk := false, genesisOk := false },
    verifyOk := false }

/-- The chain value `NewChain` builds before pushing the genesis header:
`NextHeight` is 1, the state holds no node, the placeholder root hash from the
configuration, and the height sentinel −1. -/
def initialChain (cfg : Config) (db : Store) : Chain :=
  { cfg := cfg, db := db, index := newBlockIndex,
    rt := { Offset := 0, Period := cfg.Period,
            ChainInitTime := cfg.Genesis.SignedHeader.Timestamp,
            NextHeight := 1, stopChClosed := false },
    pendingBlock := zeroBlock,
    state := { node := none, Head := cfg.Genesis.SignedHeader.RootHash, Height := -1 } }

/-- `NewChain`: verifies the configured genesis (`VerifyAsGenesis`, an
external capability whose outcome is the header's `genesisOk` field), builds
the initial chain over the freshly opened store `db0`, and pushes the genesis
header as the first accepted block. -/
def NewChain (cfg : Config) (db0 : Store) : Except ChainError Chain :=
  if cfg.Genesis.SignedHeader.genesisOk = false then .error .ErrGenesisVerifyFailed
  else
    match (initialChain cfg db0).PushBlock cfg.Genesis.SignedHeader true with
    | (_, some e) => .error e
    | (c, none) => .ok c

/-- One step of the `LoadChain` reconstruction loop, for one header record:
with no previous node the record is verified as genesis; with a previous node
whose hash matches the record's parent hash the record is verified against it
(fast path); otherwise the parent is looked up in `c.index` and its absence
is `ErrParentNotFound`.  The resulting node is built by `initBlockNode`. -/
def loadStep (c : Chain) (lastNode : Option blockNode) (header : SignedHeader) :
    Except ChainError blockNode :=
  match lastNode with
  | none =>
      if header.genesisOk = false then .error .ErrGenesisVerifyFailed
      else .ok (initBlockNode header none)
  | some ln =>
      if header.ParentHash = ln.hash then
        if header.verifyOk = false then .error .ErrVerifyFailed
        else .ok (initBlockNode header (some ln))
      else
        match c.index.LookupNode header.ParentHash with
        | none => .error .ErrParentNotFound
        | some parent => .ok (initBlockNode header (some parent))

/-- The `LoadChain` reconstruction loop over the header records in key order:
each record is processed by `loadStep`, and the freshly built node becomes
`lastNode` for the next record.  As in the source, the built nodes live only
in a local slice — nothing is added to `c.index`. -/
def loadNodes (c : Chain) : Option blockNode → List (List Nat × SignedHeader) →
    Except ChainError Unit
  | _, [] => .ok ()
  | lastNode, (_, header) :: rest =>
      match loadStep c lastNode header with
      | .error e => .error e
      | .ok n => loadNodes c (some n) rest

/-- `LoadChain`: opens the store, decodes the persisted `ChainState` record
(`Get` of a missing key yields an empty buffer), and runs the reconstruction
loop over the header records.  The chain is returned with the decoded state;
as in the source, `state.node` stays nil and the index stays as
`newBlockIndex` left it. -/
def LoadChain (cfg : Config) (db : Store) : Except ChainError Chain :=
  let c : Chain :=
    { cfg := cfg, db := db, index := newBlockIndex,
      rt := { Offset := 0, Period := cfg.Period,
              ChainInitTime := cfg.Genesis.SignedHeader.Timestamp,
              NextHeight := 1, stopChClosed := false },
      pendingBlock := zeroBlock,
      state := { node := none, Head := ⟨List.replicate 32 0⟩, Height := 0 } }
  match State.unmarshal (db.stateRec.getD []) with
  | .error e => .error e
  | .ok st =>
      let c1 : Chain := { c with state := st }
      match loadNodes c1 none db.headers with
      | .error e => .error e
      | .ok _ => .ok c1

/-- `Chain.Stop` delegates to `Runtime.Stop` (and so inherits its double-close
fatal error). -/
def Chain.Stop (c : Chain) : Except RuntimeFatal Chain :=
  (c.rt.Stop).map (fun rt => { c with rt := rt })

/-- `Chain.IsMyTurn`: stubbed in the source ("TODO: need implementation") —
always `false`.  The spec treats the turn decision as an external
producer-rotation capability; the scheduling-loop model below therefore takes
the consulted turn value as a parameter. -/
def Chain.IsMyTurn (_ : Chain) : Bool := false

/-- What one iteration of `BlockProducingCycle` did. -/
inductive LoopAction where
  | returned
  | slept
  | produced
  | idled
deriving DecidableEq, Repr

/-- One iteration of `BlockProducingCycle`.  External inputs: `d` is the
`TillNextWakeUp` duration (it reads the wall clock), `myTurn` the consulted
producer-rotation result, and `produceFails` whether `ProduceBlock` fails (it
uses the external key store and signer).  On a production failure `Cycle`
calls `Chain.Stop`; the loop then still calls `GotoNextTurn` before the next
iteration's stop-channel check.  Inside the loop the stop channel was
observed open, so the `Stop` error arm is unreachable there. -/
def Chain.loopIter (c : Chain) (d : Int) (myTurn : Bool) (produceFails : Bool) :
    Chain × LoopAction :=
  if c.rt.stopChClosed then (c, .returned)
  else if 0 < d then (c, .slept)
  else if myTurn then
    let c1 :=
      if produceFails then
        match c.Stop with
        | .ok c2 => c2
        | .error _ => c
      else c
    ({ c1 with rt := c1.rt.GotoNextTurn }, .produced)
  else (c, .idled)

/-! Concrete scenario values, used to evaluate the model on explicit inputs. -/

/-- The all-zero placeholder root hash supplied by configuration. -/
def rootHash0 : Hash := ⟨List.replicate 32 0⟩

/-- Hash of the scenario genesis block. -/
def genesisHash0 : Hash := ⟨List.replicate 32 1⟩

/-- Hash of the first scenario non-genesis block. -/
def block1Hash : Hash := ⟨List.replicate 32 2⟩

/-- A hash that never appears in the scenario chain. -/
def freshHash : Hash := ⟨List.replicate 32 9⟩

/-- The scenario genesis header: parent is the placeholder root hash, verified
as a valid genesis. -/
def genesisHeader0 : SignedHeader :=
  { ParentHash := rootHash0, RootHash := rootHash0, BlockHash := genesisHash0,
    Timestamp := 0, verifyOk := true, genesisOk := true }

/-- The scenario genesis block. -/
def genesisBlock0 : Block := { SignedHeader := genesisHeader0, verifyOk := true }

/-- The scenario configuration: the genesis above with period 10. -/
def cfg0 : Config := { Genesis := genesisBlock0, Period := 10 }

/-- The first scenario non-genesis header, extending the genesis in slot 1. -/
def header1 : SignedHeader :=
  { ParentHash := genesisHash0, RootHash := rootHash0, BlockHash := block1Hash,
    Timestamp := 10, verifyOk := true, genesisOk := false }

/-- The first scenario non-genesis block. -/
def block1 : Block := { SignedHeader := header1, verifyOk := true }

/-- The chain produced by `NewChain` on the scenario configuration (the
fallback arm is never taken: the genesis push succeeds). -/
def chainAfterGenesis : Chain :=
  match NewChain cfg0 emptyStore with
  | .ok c => c
  | .error _ => initialChain cfg0 emptyStore

/-- The scenario chain after additionally pushing `header1`. -/
def chainAfterPush1 : Chain := (chainAfterGenesis.PushBlock header1 true).1

/-- A header whose parent hash matches nothing in the scenario chain. -/
def headerOrphan : SignedHeader :=
  { ParentHash := freshHash, RootHash := rootHash0, BlockHash := ⟨List.replicate 32 7⟩,
    Timestamp := 20, verifyOk := true, genesisOk := false }

/-- A block timestamped exactly at the end of the next slot of the
post-genesis scenario chain (slot end is exclusive). -/
def blockLate : Block :=
  { SignedHeader :=
      { ParentHash := genesisHash0, RootHash := rootHash0,
        BlockHash := ⟨List.replicate 32 8⟩, Timestamp := 20,
        verifyOk := true, genesisOk := false },
    verifyOk := true }

/-- The head/node correspondence of a `State`, as a decidable check: whenever
`node` is non-nil, `Head` equals the node's block hash. -/
def State.headInvB (s : State) : Bool :=
  match s.node with
  | none => true
  | some n => decide (s.Head = n.hash)

/-- A concrete pre-genesis state record: the −1 sentinel height under an
arbitrary 32-byte head hash. -/
def stateNeg1 : State := { node := none, Head := genesisHash0, Height := -1 }

/-! Theorems. -/

/-- Recomposing the four big-endian bytes of an `int32` value recovers the
value, for every value in the `int32` range. -/
theorem int32_roundtrip (z : Int) (h1 : -2147483648 ≤ z) (h2 : z < 2147483648) :
    int32OfBytes ((z % 4294967296).toNat / 16777216 % 256)
      ((z % 4294967296).toNat / 65536 % 256)
      ((z % 4294967296).toNat / 256 % 256)
      ((z % 4294967296).toNat % 256) = z := by
  unfold int32OfBytes
  simp only []
  split <;> omega

/-- C4: `PushBlock` succeeds only when the pushed header's parent hash equals
the current head hash; for every header whose parent hash differs from the
current head it returns `ErrInvalidBlock` and leaves the chain — in
particular height and head — exactly unchanged. -/
theorem C4_push_strict_linear_extension :
    ∀ (c : Chain) (b : SignedHeader) (storeOk : Bool),
      (b.ParentHash ≠ c.state.Head →
        c.PushBlock b storeOk = (c, some ChainError.ErrInvalidBlock)) ∧
      (∀ c2, c.PushBlock b storeOk = (c2, none) → b.ParentHash = c.state.Head) := by
  intro c b storeOk
  constructor
  · intro h
    simp [Chain.PushBlock, h]
  · intro c2 hpush
    by_contra hne
    simp [Chain.PushBlock, hne] at hpush

/-- Witness for C4 at a concrete input: re-pushing the genesis header against
the post-genesis chain (its parent, the placeholder root hash, is not the
head) fails with `ErrInvalidBlock` and returns the chain unchanged. -/
theorem C4_push_strict_linear_extension_witness :
    genesisHeader0.ParentHash ≠ chainAfterGenesis.state.Head ∧
      chainAfterGenesis.PushBlock genesisHeader0 true =
        (chainAfterGenesis, some ChainError.ErrInvalidBlock) :=
  ⟨by decide,
   (C4_push_strict_linear_extension chainAfterGenesis genesisHeader0 true).1 (by decide)⟩

/-- C6: after a block has been successfully pushed, advising the identical
block again hits the duplicate check first — its hash is already indexed —
and returns `ErrBlockExists` with the chain (hence the height) unchanged,
whatever the block's timestamp or verification outcome. -/
theorem C6_readvise_duplicate_rejected :
    ∀ (c c2 : Chain) (b : Block) (storeOk storeOk2 : Bool),
      c.PushBlock b.SignedHeader storeOk = (c2, none) →
      c2.AdviseNewBlock b storeOk2 = (c2, some ChainError.ErrBlockExists) := by
  intro c c2 b storeOk storeOk2 hpush
  by_cases hp : b.SignedHeader.ParentHash = c.state.Head
  · cases storeOk with
    | false => simp [Chain.PushBlock, hp] at hpush
    | true =>
        simp [Chain.PushBlock, hp] at hpush
        subst hpush
        simp [Chain.AdviseNewBlock, blockIndex.HasBlock, blockIndex.AddBlock,
          newBlockNode, blockNode.hash]
  · simp [Chain.PushBlock, hp] at hpush

/-- Witness for C6 at a concrete input: pushing `block1` on the post-genesis
chain succeeds, and re-advising the identical block yields `ErrBlockExists`
on the unchanged chain. -/
theorem C6_readvise_duplicate_rejected_witness :
    chainAfterGenesis.PushBlock block1.SignedHeader true = (chainAfterPush1, none) ∧
      chainAfterPush1.AdviseNewBlock block1 true =
        (chainAfterPush1, some ChainError.ErrBlockExists) :=
  ⟨rfl, C6_readvise_duplicate_rejected chainAfterGenesis chainAfterPush1 block1 true true rfl⟩

/-- C7: before genesis acceptance the state built by `NewChain` has the
sentinel height −1, the placeholder root hash from the configuration as head
and no head node; and the head/node correspondence (`Head` equals the hash of
`node` whenever `node` is non-nil) holds initially and is preserved by every
`PushBlock`, in particular by every successful one. -/
theorem C7_head_node_invariant :
    ∀ (cfg : Config) (db : Store) (c : Chain) (b : SignedHeader) (storeOk : Bool),
      ((initialChain cfg db).state.Height = -1 ∧
       (initialChain cfg db).state.Head = cfg.Genesis.SignedHeader.RootHash ∧
       (initialChain cfg db).state.node = none ∧
       (initialChain cfg db).state.headInvB = true) ∧
      (c.state.headInvB = true → ((c.PushBlock b storeOk).1.state).headInvB = true) := by
  intro cfg db c b storeOk
  refine ⟨⟨rfl, rfl, rfl, rfl⟩, ?_⟩
  intro hinv
  by_cases hp : b.ParentHash = c.state.Head
  · cases storeOk <;>
      simp [Chain.PushBlock, hp, State.headInvB, newBlockNode, blockNode.hash]
  · simpa [Chain.PushBlock, hp] using hinv

/-- Witness for C7 at a concrete input: the invariant holds for the scenario
chain and is preserved across the push of `header1`. -/
theorem C7_head_node_invariant_witness :
    chainAfterGenesis.state.headInvB = true ∧
      ((chainAfterGenesis.PushBlock header1 true).1.state).headInvB = true :=
  ⟨by decide,
   (C7_head_node_invariant cfg0 emptyStore chainAfterGenesis header1 true).2 (by decide)⟩

/-- C9, counterexample: `Stop` is not idempotent.  On the freshly created
scenario chain the first `Stop` completes, and the second call runs `close`
on the already-closed stop channel — the fatal double-close error. -/
theorem C9_counterexample_double_stop_fatal :
    (chainAfterGenesis.Stop).isOk = true ∧
      chainAfterGenesis.Stop.bind Chain.Stop =
        .error RuntimeFatal.closeOfClosedChannel :=
  ⟨rfl, rfl⟩

/-- C9 as amended: `Stop` is safe to call exactly once — from any state with
the stop channel open it completes, closing the channel; a second call hits
the fatal double-close of the stop signal, so avoiding it is the caller's
responsibility. -/
theorem C9_amended_stop_safe_exactly_once :
    ∀ c : Chain, c.rt.stopChClosed = false →
      c.Stop = .ok { c with rt := { c.rt with stopChClosed := true } } ∧
      Chain.Stop { c with rt := { c.rt with stopChClosed := true } } =
        .error RuntimeFatal.closeOfClosedChannel := by
  intro c h
  constructor
  · simp [Chain.Stop, Runtime.Stop, h, Except.map]
  · simp [Chain.Stop, Runtime.Stop, Except.map]

/-- Witness for the amended C9 at a concrete input. -/
theorem C9_amended_stop_safe_exactly_once_witness :
    chainAfterGenesis.Stop =
      .ok { chainAfterGenesis with
              rt := { chainAfterGenesis.rt with stopChClosed := true } } ∧
      Chain.Stop { chainAfterGenesis with
                     rt := { chainAfterGenesis.rt with stopChClosed := true } } =
        .error RuntimeFatal.closeOfClosedChannel :=
  C9_amended_stop_safe_exactly_once chainAfterGenesis (by decide)

/-- C10: in the scheduling loop, when it is the local participant's turn and
production fails, the iteration triggers `Stop` but still calls
`GotoNextTurn` afterwards: `NextHeight` is one past the failed turn's value,
the stop channel is closed, and the next iteration observes the stop signal
and terminates whatever its inputs. -/
theorem C10_failed_turn_still_advances :
    ∀ (c : Chain) (d : Int),
      c.rt.stopChClosed = false → d ≤ 0 →
      (c.loopIter d true true).1.rt.NextHeight = c.rt.NextHeight + 1 ∧
      (c.loopIter d true true).1.rt.stopChClosed = true ∧
      (c.loopIter d true true).2 = LoopAction.produced ∧
      ∀ (d2 : Int) (mt pf : Bool),
        (c.loopIter d true true).1.loopIter d2 mt pf =
          ((c.loopIter d true true).1, LoopAction.returned) := by
  intro c d h hd
  have hnd : ¬ (0 < d) := by omega
  simp [Chain.loopIter, h, hnd, Chain.Stop, Runtime.Stop, Runtime.GotoNextTurn,
    Except.map]

/-- Witness for C10 at a concrete input: on the scenario chain with a due
slot, a failed own turn leaves `NextHeight` incremented and the following
iteration returns. -/
theorem C10_failed_turn_still_advances_witness :
    (chainAfterGenesis.loopIter 0 true true).1.rt.NextHeight =
        chainAfterGenesis.rt.NextHeight + 1 ∧
      (chainAfterGenesis.loopIter 0 true true).1.loopIter 0 true true =
        ((chainAfterGenesis.loopIter 0 true true).1, LoopAction.returned) :=
  ⟨(C10_failed_turn_still_advances chainAfterGenesis 0 (by decide) (by decide)).1,
   (C10_failed_turn_still_advances chainAfterGenesis 0 (by decide) (by decide)).2.2.2
     0 true true⟩

/-- C1, counterexample: push is not all-or-nothing for the store-failure
class.  On the post-genesis scenario chain, pushing `header1` while the bolt
transaction fails returns an error, yet the in-memory height has already been
advanced (and the head moved) — the state is mutated before the persistence
write commits. -/
theorem C1_counterexample_store_failure_mutates :
    (chainAfterGenesis.PushBlock header1 false).2 = some ChainError.ErrStoreFailed ∧
      chainAfterGenesis.state.Height = 0 ∧
      (chainAfterGenesis.PushBlock header1 false).1.state.Height = 1 ∧
      (chainAfterGenesis.PushBlock header1 false).1.state.Head = block1Hash := by
  refine ⟨by decide, by decide, by decide, by decide⟩

/-- C1 as amended: `PushBlock` is all-or-nothing only for the
validation/conflict class — on `ErrInvalidBlock` the chain is returned
exactly unchanged; the in-memory state and index are mutated before the
persistence write, so when the store transaction fails the call returns an
error with head and height already updated and only the store itself rolled
back. -/
theorem C1_amended_push_mutates_before_commit :
    ∀ (c : Chain) (b : SignedHeader) (storeOk : Bool),
      (b.ParentHash ≠ c.state.Head →
        c.PushBlock b storeOk = (c, some ChainError.ErrInvalidBlock)) ∧
      (b.ParentHash = c.state.Head → storeOk = false →
        (c.PushBlock b storeOk).2 = some ChainError.ErrStoreFailed ∧
        (c.PushBlock b storeOk).1.state.Head = b.BlockHash ∧
        (c.PushBlock b storeOk).1.state.Height = c.state.Height + 1 ∧
        (c.PushBlock b storeOk).1.db = c.db) := by
  intro c b storeOk
  constructor
  · intro h
    simp [Chain.PushBlock, h]
  · intro hp hso
    subst hso
    simp [Chain.PushBlock, hp]

/-- Witness for the amended C1 at a concrete input. -/
theorem C1_amended_push_mutates_before_commit_witness :
    (chainAfterGenesis.PushBlock header1 false).2 = some ChainError.ErrStoreFailed ∧
      (chainAfterGenesis.PushBlock header1 false).1.state.Head = header1.BlockHash ∧
      (chainAfterGenesis.PushBlock header1 false).1.state.Height =
        chainAfterGenesis.state.Height + 1 ∧
      (chainAfterGenesis.PushBlock header1 false).1.db = chainAfterGenesis.db :=
  (C1_amended_push_mutates_before_commit chainAfterGenesis header1 false).2
    (by decide) rfl

/-- C2, evaluation at the failing input: `NewChain` on the scenario
configuration succeeds, one further `PushBlock` succeeds (N = 1), and
`LoadChain` on the resulting store succeeds and restores the persisted head
hash and height of the last pushed block — but the rebuilt in-memory index
holds 0 nodes, not N + 1 = 2: the reconstruction loop builds its nodes in a
local slice and never inserts them into `chain.index`. -/
theorem C2_load_rebuilds_empty_index :
    (NewChain cfg0 emptyStore).isOk = true ∧
      (chainAfterGenesis.PushBlock header1 true).2 = none ∧
      chainAfterPush1.index.size = 2 ∧
      (LoadChain cfg0 chainAfterPush1.db).map (fun c => c.state.Head) = .ok block1Hash ∧
      (LoadChain cfg0 chainAfterPush1.db).map (fun c => c.state.Height) = .ok 1 ∧
      (LoadChain cfg0 chainAfterPush1.db).map (fun c => c.index.size) = .ok 0 := by
  exact ⟨by decide, by decide, by decide, rfl, rfl, rfl⟩

/-- C3: the branch structure of one step of the load-reconstruction loop —
with no preceding node the record must verify as genesis; when the record's
parent hash equals the hash of the immediately preceding reconstructed node
it is verified against that parent; otherwise the parent is looked up by
hash in the chain's index, and its absence fails the load with
`ErrParentNotFound`. -/
theorem C3_load_reconstruction_steps :
    ∀ (c : Chain) (h : SignedHeader),
      (loadStep c none h =
        if h.genesisOk = false then .error ChainError.ErrGenesisVerifyFailed
        else .ok (initBlockNode h none)) ∧
      (∀ ln, h.ParentHash = ln.hash →
        loadStep c (some ln) h =
          if h.verifyOk = false then .error ChainError.ErrVerifyFailed
          else .ok (initBlockNode h (some ln))) ∧
      (∀ ln, h.ParentHash ≠ ln.hash → c.index.LookupNode h.ParentHash = none →
        loadStep c (some ln) h = .error ChainError.ErrParentNotFound) := by
  intro c h
  refine ⟨rfl, ?_, ?_⟩
  · intro ln hpar
    simp [loadStep, hpar]
  · intro ln hpar hlook
    simp [loadStep, hpar, hlook]

/-- Witness for C3 at a concrete input: an orphan header (parent hash present
neither as the preceding node's hash nor in the index) fails the load with
`ErrParentNotFound`. -/
theorem C3_load_reconstruction_steps_witness :
    headerOrphan.ParentHash ≠ (initBlockNode genesisHeader0 none).hash ∧
      loadStep (initialChain cfg0 emptyStore)
          (some (initBlockNode genesisHeader0 none)) headerOrphan =
        .error ChainError.ErrParentNotFound :=
  ⟨by decide,
   (C3_load_reconstruction_steps (initialChain cfg0 emptyStore) headerOrphan).2.2
     (initBlockNode genesisHeader0 none) (by decide) rfl⟩

/-- C8: for every `ChainState` value with a 32-byte head hash and a height in
the signed 32-bit range (the −1 sentinel included), unmarshalling the bytes
produced by marshalling yields exactly the original head hash and height. -/
theorem C8_state_marshal_roundtrip :
    ∀ s : State, s.Head.bytes.length = 32 →
      -2147483648 ≤ s.Height → s.Height < 2147483648 →
      State.unmarshal s.marshal =
        .ok { node := none, Head := s.Head, Height := s.Height } := by
  intro s hlen h1 h2
  have hdrop : (s.Head.bytes ++ int32ToBytes s.Height).drop 32 = int32ToBytes s.Height := by
    rw [← hlen]
    exact List.drop_left _ _
  have htake : (s.Head.bytes ++ int32ToBytes s.Height).take 32 = s.Head.bytes := by
    rw [← hlen]
    exact List.take_left _ _
  unfold State.marshal State.unmarshal
  rw [hdrop]
  simp only [int32ToBytes] at htake ⊢
  rw [htake]
  simp [int32_roundtrip s.Height h1 h2]

/-- Witness for C8 at a concrete input: the round trip at the −1 sentinel
height. -/
theorem C8_state_marshal_roundtrip_witness :
    stateNeg1.Head.bytes.length = 32 ∧
      State.unmarshal stateNeg1.marshal =
        .ok { node := none, Head := stateNeg1.Head, Height := stateNeg1.Height } :=
  ⟨by decide, C8_state_marshal_roundtrip stateNeg1 (by decide) (by decide) (by decide)⟩

/-- C5: the admission window is exactly the half-open slot interval.  With
genesis time `T0`, period `P > 0` and current height `h`, for a block whose
hash is not yet indexed: a timestamp of exactly `T0 + (h+1)·P` passes the
timestamp check (the call never returns `ErrBlockTimestampOutOfPeriod`); a
timestamp at or beyond `T0 + (h+2)·P` is rejected with
`ErrBlockTimestampOutOfPeriod`; a timestamp strictly before `T0 + (h+1)·P`
is rejected with `ErrBlockTimestampOutOfPeriod`. -/
theorem C5_timestamp_half_open_window :
    ∀ (c : Chain) (b : Block) (storeOk : Bool),
      0 < c.cfg.Period →
      c.index.HasBlock b.SignedHeader.BlockHash = false →
      ((b.SignedHeader.Timestamp =
          c.cfg.Genesis.SignedHeader.Timestamp + (c.state.Height + 1) * c.cfg.Period →
        (c.AdviseNewBlock b storeOk).2 ≠ some ChainError.ErrBlockTimestampOutOfPeriod) ∧
       (c.cfg.Genesis.SignedHeader.Timestamp + (c.state.Height + 2) * c.cfg.Period ≤
          b.SignedHeader.Timestamp →
        c.AdviseNewBlock b storeOk = (c, some ChainError.ErrBlockTimestampOutOfPeriod)) ∧
       (b.SignedHeader.Timestamp <
          c.cfg.Genesis.SignedHeader.Timestamp + (c.state.Height + 1) * c.cfg.Period →
        c.AdviseNewBlock b storeOk = (c, some ChainError.ErrBlockTimestampOutOfPeriod))) := by
  intro c b storeOk hP hHas
  have hexp : (c.state.Height + 2) * c.cfg.Period
      = (c.state.Height + 1) * c.cfg.Period + c.cfg.Period := by ring
  refine ⟨?_, ?_, ?_⟩
  · intro hts
    have hcond : ¬ (b.SignedHeader.Timestamp <
          c.cfg.Genesis.SignedHeader.Timestamp + (c.state.Height + 1) * c.cfg.Period ∨
        (b.SignedHeader.Timestamp =
            c.cfg.Genesis.SignedHeader.Timestamp + (c.state.Height + 1) * c.cfg.Period +
              c.cfg.Period ∨
          c.cfg.Genesis.SignedHeader.Timestamp + (c.state.Height + 1) * c.cfg.Period +
              c.cfg.Period < b.SignedHeader.Timestamp)) := by
      push_neg
      refine ⟨by linarith, by linarith, by linarith⟩
    simp only [Chain.AdviseNewBlock, hHas, Bool.false_eq_true, if_false, if_neg hcond]
    split
    · simp
    · simp only [Chain.PushBlock]
      split
      · simp
      · split <;> simp
  · intro hts
    rw [hexp] at hts
    have hcond : b.SignedHeader.Timestamp <
          c.cfg.Genesis.SignedHeader.Timestamp + (c.state.Height + 1) * c.cfg.Period ∨
        (b.SignedHeader.Timestamp =
            c.cfg.Genesis.SignedHeader.Timestamp + (c.state.Height + 1) * c.cfg.Period +
              c.cfg.Period ∨
          c.cfg.Genesis.SignedHeader.Timestamp + (c.state.Height + 1) * c.cfg.Period +
              c.cfg.Period < b.SignedHeader.Timestamp) := by
      rcases lt_or_eq_of_le hts with h | h
      · exact Or.inr (Or.inr (by linarith))
      · exact Or.inr (Or.inl (by linarith))
    simp only [Chain.AdviseNewBlock, hHas, Bool.false_eq_true, if_false, if_pos hcond]
  · intro hts
    have hcond : b.SignedHeader.Timestamp <
          c.cfg.Genesis.SignedHeader.Timestamp + (c.state.Height + 1) * c.cfg.Period ∨
        (b.SignedHeader.Timestamp =
            c.cfg.Genesis.SignedHeader.Timestamp + (c.state.Height + 1) * c.cfg.Period +
              c.cfg.Period ∨
          c.cfg.Genesis.SignedHeader.Timestamp + (c.state.Height + 1) * c.cfg.Period +
              c.cfg.Period < b.SignedHeader.Timestamp) := Or.inl hts
    simp only [Chain.AdviseNewBlock, hHas, Bool.false_eq_true, if_false, if_pos hcond]

/-- Witness for C5 at a concrete input: on the post-genesis scenario chain
(genesis time 0, period 10, height 0), a block timestamped 20 — exactly the
exclusive end `T0 + (h+2)·P` of slot 1 — is rejected with
`ErrBlockTimestampOutOfPeriod`. -/
theorem C5_timestamp_half_open_window_witness :
    0 < chainAfterGenesis.cfg.Period ∧
      chainAfterGenesis.index.HasBlock blockLate.SignedHeader.BlockHash = false ∧
      chainAfterGenesis.AdviseNewBlock blockLate true =
        (chainAfterGenesis, some ChainError.ErrBlockTimestampOutOfPeriod) :=
  ⟨by decide, by decide,
   (C5_timestamp_half_open_window chainAfterGenesis blockLate true
       (by decide) (by decide)).2.1 (by decide)⟩

end SQLChain
